import Mathlib

/-!
Verification of the CH9329 serial-protocol driver and its HID automation
layer.  The definitions below are shallow embeddings of the Python sources
`ch9329.py`, `hid.py` and `keymap.py`: byte strings become `List Nat`,
fallible decoding becomes `Except`, and the retry loop of `_send_frame`
becomes a recursion over the per-attempt responses delivered by the
transport.
-/

namespace CH9329

-- Protocol constants (ch9329.py)
def FRAME_HEAD : List Nat := [0x57, 0xAB]

def ADDR_DEFAULT : Nat := 0x00

def ACK_FRAME_MIN_LENGTH : Nat := 7

def ACK_STATUS_SUCCESS : Nat := 0x00

def ACK_STATUS_BAD_PARAM : Nat := 0xE5

def RETRY_COUNT : Nat := 3

/-- `CH9329._calculate_checksum`: sum of all bytes masked to 8 bits
(`sum(data) & 0xFF`). -/
def calculate_checksum (data : List Nat) : Nat :=
  data.sum &&& 0xFF

/-- The distinct failure modes of `CH9329._decode_and_verify`.  All but
`indexError` correspond to an `ACKError` raised by the method itself;
`indexError` models the Python `IndexError` escaping from `data[0]` when the
error-form frame carries an empty payload. -/
inductive DecodeErr where
  | frameTooShort
  | invalidHeader
  | incompleteFrame
  | checksumMismatch
  | deviceError (status : Nat)
  | unexpectedCommand
  | payloadSizeMismatch
  | indexError
  deriving DecidableEq

/-- Whether the failure is an `ACKError` (caught by `_send_frame`) as opposed
to the uncaught `IndexError`. -/
def DecodeErr.isAckError : DecodeErr → Bool
  | .indexError => false
  | _ => true

/-- The `status_code` attribute carried by the raised `ACKError`: set only for
device-reported error statuses. -/
def DecodeErr.statusCode : DecodeErr → Option Nat
  | .deviceError s => some s
  | _ => none

/-- `CH9329._decode_and_verify`: parse a response frame
`HEAD(2) ++ ADDR(1) ++ CMD(1) ++ LEN(1) ++ DATA(len) ++ SUM(1)` and verify it
against the command that was sent. -/
def decode_and_verify (response : List Nat) (expectedCmd : Nat)
    (expectedPayloadLength : Option Nat) : Except DecodeErr (List Nat) :=
  if response.length < ACK_FRAME_MIN_LENGTH then .error .frameTooShort
  else if response.take 2 ≠ FRAME_HEAD then .error .invalidHeader
  else
    let cmd := response.getD 3 0
    let length := response.getD 4 0
    if 6 + length > response.length then .error .incompleteFrame
    else
      let data := (response.drop 5).take length
      let checksum := response.getD (5 + length) 0
      let calculated := calculate_checksum (response.take (5 + length))
      if checksum ≠ calculated then .error .checksumMismatch
      else if cmd = (expectedCmd ||| 0xC0) then
        match data with
        | [] => .error .indexError
        | s :: _ => .error (.deviceError s)
      else if cmd ≠ (expectedCmd ||| 0x80) then .error .unexpectedCommand
      else
        match expectedPayloadLength with
        | some l => if length ≠ l then .error .payloadSizeMismatch else .ok data
        | none => .ok data

/-- The frame built at the top of `CH9329._send_frame`:
`HEAD ++ [ADDR, cmd, len(payload)] ++ payload ++ [checksum]`.  Faithful to
the source for payloads of at most 255 bytes (beyond that the Python
`bytearray.append` would reject the length byte). -/
def encodeFrame (cmd : Nat) (payload : List Nat) : List Nat :=
  let frame := FRAME_HEAD ++ [ADDR_DEFAULT, cmd, payload.length] ++ payload
  frame ++ [calculate_checksum frame]

/-- `bytes.find(FRAME_HEAD)`: index of the first occurrence of the two-byte
frame-head magic, if any. -/
def findFrameHead : List Nat → Option Nat
  | 0x57 :: 0xAB :: _ => some 0
  | _ :: rest => (findFrameHead rest).map (· + 1)
  | [] => none

/-- Result of one `_send_frame` call: a returned payload, the returned `None`
failure value, or an exception escaping the method. -/
inductive SendOutcome where
  | ok (data : List Nat)
  | failed
  | exn
  deriving DecidableEq

/-- The retry loop body of `CH9329._send_frame`, recursing over the list of
responses the transport will deliver for the successive attempts.  The second
component counts the `write` calls performed.  Transport writes are assumed to
succeed (the write-timeout branch is not exercised by any claim). -/
def send_frame_loop (cmd : Nat) : List (List Nat) → Nat → SendOutcome × Nat
  | [], writes => (.failed, writes)
  | resp :: rest, writes =>
    let writes1 := writes + 1
    if resp ≠ [] then
      match findFrameHead resp with
      | some idx =>
        match decode_and_verify (resp.drop idx) cmd none with
        | .ok data => (.ok data, writes1)
        | .error e =>
          if e.isAckError then
            if e.statusCode = some ACK_STATUS_BAD_PARAM then (.failed, writes1)
            else send_frame_loop cmd rest writes1
          else (.exn, writes1)
      | none => send_frame_loop cmd rest writes1
    else send_frame_loop cmd rest writes1

/-- `CH9329._send_frame`: run the retry loop over `RETRY_COUNT` attempts,
where `responses i` is what the transport read returns on attempt `i`.
The `payload` argument determines the frame written on each attempt but not
the control flow. -/
def send_frame (cmd : Nat) (payload : List Nat) (responses : Nat → List Nat) :
    SendOutcome × Nat :=
  let _frame := encodeFrame cmd payload
  send_frame_loop cmd ((List.range RETRY_COUNT).map responses) 0

end CH9329

namespace HID

-- keymap.py: modifier bits
def MOD_NONE : Nat := 0x00

def MOD_LCTRL : Nat := 0x01

def MOD_LSHFT : Nat := 0x02

def MOD_LALT : Nat := 0x04

def MOD_LGUI : Nat := 0x08

/-- `keymap.MOD_MAP`: human-readable modifier names. -/
def MOD_MAP : List (String × Nat) :=
  [("ctrl", MOD_LCTRL), ("control", MOD_LCTRL),
   ("shift", MOD_LSHFT),
   ("alt", MOD_LALT), ("option", MOD_LALT),
   ("gui", MOD_LGUI), ("win", MOD_LGUI), ("cmd", MOD_LGUI),
   ("command", MOD_LGUI), ("meta", MOD_LGUI), ("super", MOD_LGUI)]

/-- `keymap.KEY`: base ASCII mapping for single characters (lower-case
letters, digits, basic control characters and US-layout punctuation). -/
def KEY (c : Char) : Option Nat :=
  if 'a' ≤ c ∧ c ≤ 'z' then some (0x04 + c.toNat - 'a'.toNat)
  else
    match c with
    | '1' => some 0x1E
    | '2' => some 0x1F
    | '3' => some 0x20
    | '4' => some 0x21
    | '5' => some 0x22
    | '6' => some 0x23
    | '7' => some 0x24
    | '8' => some 0x25
    | '9' => some 0x26
    | '0' => some 0x27
    | '\n' => some 0x28
    | '\x08' => some 0x2A
    | '\t' => some 0x2B
    | ' ' => some 0x2C
    | '-' => some 0x2D
    | '=' => some 0x2E
    | '[' => some 0x2F
    | ']' => some 0x30
    | '\\' => some 0x31
    | ';' => some 0x33
    | '\'' => some 0x34
    | '`' => some 0x35
    | ',' => some 0x36
    | '.' => some 0x37
    | '/' => some 0x38
    | _ => none

/-- `keymap.SHIFTED`: shifted characters mapped to their base key and the
shift modifier. -/
def SHIFTED (c : Char) : Option (Char × Nat) :=
  match c with
  | '!' => some ('1', MOD_LSHFT)
  | '@' => some ('2', MOD_LSHFT)
  | '#' => some ('3', MOD_LSHFT)
  | '$' => some ('4', MOD_LSHFT)
  | '%' => some ('5', MOD_LSHFT)
  | '^' => some ('6', MOD_LSHFT)
  | '&' => some ('7', MOD_LSHFT)
  | '*' => some ('8', MOD_LSHFT)
  | '(' => some ('9', MOD_LSHFT)
  | ')' => some ('0', MOD_LSHFT)
  | '_' => some ('-', MOD_LSHFT)
  | '+' => some ('=', MOD_LSHFT)
  | '\x7b' => some ('[', MOD_LSHFT)
  | '\x7d' => some (']', MOD_LSHFT)
  | '|' => some ('\\', MOD_LSHFT)
  | ':' => some (';', MOD_LSHFT)
  | '"' => some ('\'', MOD_LSHFT)
  | '~' => some ('`', MOD_LSHFT)
  | '<' => some (',', MOD_LSHFT)
  | '>' => some ('.', MOD_LSHFT)
  | '?' => some ('/', MOD_LSHFT)
  | _ => none

/-- `keymap.NUMPAD_KEYS`. -/
def NUMPAD_KEYS : List (String × Nat) :=
  [("num0", 0x62), ("num1", 0x59), ("num2", 0x5A), ("num3", 0x5B),
   ("num4", 0x5C), ("num5", 0x5D), ("num6", 0x5E), ("num7", 0x5F),
   ("num8", 0x60), ("num9", 0x61), ("numlock", 0x53), ("numenter", 0x58),
   ("num\n", 0x58), ("num/", 0x54), ("num*", 0x55), ("num-", 0x56),
   ("num+", 0x57), ("num.", 0x63)]

/-- `keymap.SPECIAL_KEYS` (includes the numpad keys). -/
def SPECIAL_KEYS : List (String × Nat) :=
  [("f1", 0x3A), ("f2", 0x3B), ("f3", 0x3C), ("f4", 0x3D), ("f5", 0x3E),
   ("f6", 0x3F), ("f7", 0x40), ("f8", 0x41), ("f9", 0x42), ("f10", 0x43),
   ("f11", 0x44), ("f12", 0x45), ("printscreen", 0x46), ("scrolllock", 0x47),
   ("pause", 0x48), ("insert", 0x49), ("home", 0x4A), ("pageup", 0x4B),
   ("delete", 0x4C), ("end", 0x4D), ("pagedown", 0x4E), ("right", 0x4F),
   ("left", 0x50), ("down", 0x51), ("up", 0x52), ("enter", 0x28),
   ("backspace", 0x2A), ("tab", 0x2B), ("esc", 0x29), ("space", 0x2C)]
  ++ NUMPAD_KEYS

/-- Python `str.lower()` for key names (ASCII lower-casing, as
`String.toLower`, stated structurally so that it evaluates). -/
def strLower (s : String) : String := ⟨s.data.map Char.toLower⟩

/-- Step 4 of `char_to_hid`: look the (lower-cased) name up in
`SPECIAL_KEYS`. -/
def specialLookup (ch : String) : Nat × Option Nat :=
  match SPECIAL_KEYS.lookup (strLower ch) with
  | some k => (MOD_NONE, some k)
  | none => (MOD_NONE, none)

/-- `keymap.char_to_hid`: translate a character (or special-key name) to a
`(modifier, keycode)` pair. -/
def char_to_hid (ch : String) : Nat × Option Nat :=
  match ch.toList with
  | [c] =>
    if 'A' ≤ c ∧ c ≤ 'Z' then (MOD_LSHFT, KEY c.toLower)
    else
      match SHIFTED c with
      | some (baseChar, m) => (m, KEY baseChar)
      | none =>
        match KEY c with
        | some k => (MOD_NONE, some k)
        | none => specialLookup ch
  | _ => specialLookup ch

/-- The keyboard-relevant mutable state of `HIDController`:
`_held_modifiers` and `_pressed_keys`. -/
structure HidS where
  heldModifiers : Nat
  pressedKeys : List Nat
  deriving DecidableEq

/-- State right after `HIDController.__init__` (whose `reset()` ends with
`releaseAllKey()`). -/
def initState : HidS := ⟨0x00, []⟩

/-- One keyboard report, as the `(modifier, keycodes)` arguments passed to
`CH9329.send_keyboard`. -/
abbrev KbdReport := Nat × List Nat

/-- `HIDController.keyDown`: returns the new state and the reports sent. -/
def keyDown (s : HidS) (key : String) : HidS × List KbdReport :=
  let keyL := strLower key
  match MOD_MAP.lookup keyL with
  | some m =>
    let s1 : HidS := ⟨s.heldModifiers ||| m, s.pressedKeys⟩
    (s1, [(s1.heldModifiers, s1.pressedKeys.take 6)])
  | none =>
    match char_to_hid key with
    | (m, some code) =>
      if code ≠ 0 then
        let pk := if code ∈ s.pressedKeys then s.pressedKeys
                  else s.pressedKeys ++ [code]
        let s1 : HidS := ⟨s.heldModifiers, pk⟩
        (s1, [(s.heldModifiers ||| m, pk.take 6)])
      else (s, [])
    | (_, none) => (s, [])

/-- `HIDController.keyUp`: returns the new state and the reports sent. -/
def keyUp (s : HidS) (key : String) : HidS × List KbdReport :=
  let keyL := strLower key
  let s1 : HidS :=
    match MOD_MAP.lookup keyL with
    | some m => ⟨s.heldModifiers &&& (0xFF ^^^ m), s.pressedKeys⟩
    | none =>
      match char_to_hid key with
      | (_, some code) => ⟨s.heldModifiers, s.pressedKeys.erase code⟩
      | (_, none) => s
  (s1, [(s1.heldModifiers, s1.pressedKeys.take 6)])

/-- `HIDController.releaseAllKey`. -/
def releaseAllKey (_s : HidS) : HidS × List KbdReport :=
  (initState, [(0x00, [])])

/-- The argument-scanning loop at the top of `HIDController.hotkey`,
accumulating `final_mod` and `final_codes`. -/
def hotkeyScan (keys : List String) : Nat × List Nat :=
  keys.foldl
    (fun acc k =>
      let kL := strLower k
      match MOD_MAP.lookup kL with
      | some m => (acc.1 ||| m, acc.2)
      | none =>
        match char_to_hid k with
        | (m, some code) =>
          let fm := if m ≠ 0 then acc.1 ||| m else acc.1
          let fc := if code ∈ acc.2 then acc.2 else acc.2 ++ [code]
          (fm, fc)
        | (_, none) => acc)
    (0, [])

/-- `HIDController.hotkey`: sends a transient modifier report, the combined
report, then restores the persistent state; the state itself is never
mutated. -/
def hotkey (s : HidS) (keys : List String) : HidS × List KbdReport :=
  let scan := hotkeyScan keys
  let finalMod := scan.1
  let finalCodes := scan.2
  if finalCodes ≠ [] ∨ finalMod ≠ 0 then
    (s, (if finalMod ≠ 0 then [(finalMod, ([] : List Nat))] else [])
        ++ [(finalMod, finalCodes)]
        ++ [(s.heldModifiers, s.pressedKeys.take 6)])
  else (s, [])

/-- A keyboard operation of the HID layer. -/
inductive KbdOp where
  | down (k : String)
  | up (k : String)
  | releaseAll

/-- Apply one keyboard operation to the state. -/
def applyOp (s : HidS) : KbdOp → HidS
  | .down k => (keyDown s k).1
  | .up k => (keyUp s k).1
  | .releaseAll => (releaseAllKey s).1

end HID

namespace Drag

/-- Python `int()` applied to a rational: truncation toward zero. -/
def truncQ (q : ℚ) : ℤ :=
  if 0 ≤ q then ⌊q⌋ else ⌈q⌉

/-- The accumulation loop of `HIDController.dragRel` (exact-arithmetic model
of the float accumulators): per step add the per-step increment, send the
integer part, keep the remainder.  Reports where both components are zero are
not sent, exactly as in the source. -/
def dragLoop (fsx fsy : ℚ) : Nat → ℚ → ℚ → List (ℤ × ℤ)
  | 0, _, _ => []
  | n + 1, ax, ay =>
    let ax1 := ax + fsx
    let ay1 := ay + fsy
    let sx := truncQ ax1
    let sy := truncQ ay1
    let rest := dragLoop fsx fsy n (ax1 - sx) (ay1 - sy)
    if sx ≠ 0 ∨ sy ≠ 0 then (sx, sy) :: rest else rest

/-- The relative-mouse deltas emitted by `dragRel(dx, dy)` when the step
count computed from the distance is `steps`: per-step increments are
`dx / steps` and `dy / steps`, accumulators start at zero. -/
def dragRelDeltas (dx dy : ℚ) (steps : Nat) : List (ℤ × ℤ) :=
  dragLoop (dx / steps) (dy / steps) steps 0 0

/-- Ghost trajectory of one accumulator of `dragLoop`: the remainder left in
the accumulator after `n` iterations with per-step increment `fs`. -/
def stepAccum (fs : ℚ) : Nat → ℚ → ℚ
  | 0, a => a
  | n + 1, a => stepAccum fs n ((a + fs) - truncQ (a + fs))

end Drag

open CH9329 HID Drag

/-- Helper: a frame-head index only exists for a nonempty buffer. -/
theorem findFrameHead_nil : findFrameHead [] = none := rfl

/-- Helper: masked sums are sums modulo 256. -/
theorem calculate_checksum_eq_mod (data : List Nat) :
    calculate_checksum data = data.sum % 256 := by
  have h := Nat.and_pow_two_sub_one_eq_mod data.sum 8
  norm_num at h
  simpa [calculate_checksum] using h

/-- Helper: for a command byte with the `0x40` bit clear, the success form
and the error form of the response command differ. -/
theorem or80_ne_orC0 (c : Nat) (h : c &&& 0x40 = 0) :
    c ||| 0x80 ≠ c ||| 0xC0 := by
  intro he
  have hbit : c.testBit 6 = false := by
    have h6 := congrArg (fun n => n.testBit 6) h
    have h64 : Nat.testBit 0x40 6 = true := by decide
    simpa [Nat.testBit_and, h64] using h6
  have h6 := congrArg (fun n => n.testBit 6) he
  have h128 : Nat.testBit 0x80 6 = false := by decide
  have h192 : Nat.testBit 0xC0 6 = true := by decide
  simp [Nat.testBit_or, hbit, h128, h192] at h6

/-- Helper: a found frame-head index implies a nonempty buffer. -/
theorem findFrameHead_ne_nil {l : List Nat} {i : Nat}
    (h : findFrameHead l = some i) : l ≠ [] := by
  intro he
  subst he
  simp [findFrameHead] at h

/-- Helper: one retry-loop attempt whose response decodes to a
device-reported error either stops (bad parameter) or proceeds to the next
attempt, in both cases having performed one more write. -/
theorem send_frame_loop_deviceError (cmd : Nat) (resp : List Nat)
    (rest : List (List Nat)) (w idx s : Nat)
    (hf : findFrameHead resp = some idx)
    (hd : decode_and_verify (resp.drop idx) cmd none =
      .error (.deviceError s)) :
    send_frame_loop cmd (resp :: rest) w =
      if s = 0xE5 then (.failed, w + 1)
      else send_frame_loop cmd rest (w + 1) := by
  have hne : resp ≠ [] := findFrameHead_ne_nil hf
  simp only [send_frame_loop, ne_eq, hne, not_false_eq_true, if_true, hf, hd,
    DecodeErr.isAckError, DecodeErr.statusCode, ACK_STATUS_BAD_PARAM,
    Option.some.injEq, if_true]

/-- Helper: the three attempts of `_send_frame`. -/
theorem range_retry_map (responses : Nat → List Nat) :
    (List.range RETRY_COUNT).map responses =
      [responses 0, responses 1, responses 2] := by
  rw [show List.range RETRY_COUNT = [0, 1, 2] from rfl]
  simp

/-- Claim C2: if the first attempt's response decodes to a device error with
the bad-parameter status `0xE5`, `_send_frame` returns the failure value
after exactly one write — no second attempt; if instead every attempt's
response decodes to a device error with some other status, it performs
exactly `RETRY_COUNT - 1` additional writes after the first (three writes in
total) before returning the failure value. -/
theorem send_frame_bad_param_stops_others_retry (cmd : Nat)
    (payload : List Nat) (responses : Nat → List Nat) :
    ((∃ idx, findFrameHead (responses 0) = some idx ∧
        decode_and_verify ((responses 0).drop idx) cmd none =
          .error (.deviceError 0xE5)) →
      send_frame cmd payload responses = (.failed, 1))
    ∧ ((∀ i, i < RETRY_COUNT → ∃ idx s,
        findFrameHead (responses i) = some idx ∧
        decode_and_verify ((responses i).drop idx) cmd none =
          .error (.deviceError s) ∧ s ≠ 0xE5) →
      send_frame cmd payload responses = (.failed, RETRY_COUNT)) := by
  constructor
  · rintro ⟨idx, hf, hd⟩
    simp only [send_frame]
    rw [range_retry_map responses,
      send_frame_loop_deviceError cmd _ _ 0 idx 0xE5 hf hd]
    simp
  · intro hall
    obtain ⟨i0, s0, hf0, hd0, hs0⟩ := hall 0 (by decide)
    obtain ⟨i1, s1, hf1, hd1, hs1⟩ := hall 1 (by decide)
    obtain ⟨i2, s2, hf2, hd2, hs2⟩ := hall 2 (by decide)
    simp only [send_frame]
    rw [range_retry_map responses,
      send_frame_loop_deviceError cmd _ _ 0 i0 s0 hf0 hd0, if_neg hs0,
      send_frame_loop_deviceError cmd _ _ 1 i1 s1 hf1 hd1, if_neg hs1,
      send_frame_loop_deviceError cmd _ _ 2 i2 s2 hf2 hd2, if_neg hs2]
    rfl

/-- Claim C2 witness: concrete transports answering the keyboard command
`0x02` with a bad-parameter error frame (one write, immediate failure) and
with an execution-failed error frame on every attempt (three writes). -/
theorem send_frame_bad_param_stops_others_retry_witness :
    send_frame 0x02 []
      (fun _ => [0x57, 0xAB, 0x00, 0xC2, 0x01, 0xE5, 0xAA]) = (.failed, 1) ∧
    send_frame 0x02 []
      (fun _ => [0x57, 0xAB, 0x00, 0xC2, 0x01, 0xE6, 0xAB]) = (.failed, 3) :=
  ⟨(send_frame_bad_param_stops_others_retry 0x02 []
      (fun _ => [0x57, 0xAB, 0x00, 0xC2, 0x01, 0xE5, 0xAA])).1
      ⟨0, rfl, rfl⟩,
   (send_frame_bad_param_stops_others_retry 0x02 []
      (fun _ => [0x57, 0xAB, 0x00, 0xC2, 0x01, 0xE6, 0xAB])).2
      (fun i _ => ⟨0, 0xE6, rfl, rfl, by decide⟩)⟩

/-- Claim C3: with a transport whose read yields empty bytes on every
attempt, `_send_frame` performs exactly `RETRY_COUNT = 3` writes and then
returns the failure value — no exception outcome. -/
theorem send_frame_empty_responses (cmd : Nat) (payload : List Nat)
    (responses : Nat → List Nat)
    (h : ∀ i, i < RETRY_COUNT → responses i = []) :
    send_frame cmd payload responses = (.failed, RETRY_COUNT) := by
  have h0 := h 0 (by decide)
  have h1 := h 1 (by decide)
  have h2 := h 2 (by decide)
  simp only [send_frame]
  rw [range_retry_map responses, h0, h1, h2]
  rfl

/-- Claim C3 witness: the spec's scenario `send_frame(0x99, b"")` against a
transport that never responds. -/
theorem send_frame_empty_responses_witness :
    send_frame 0x99 [] (fun _ => []) = (.failed, 3) :=
  send_frame_empty_responses 0x99 [] (fun _ => []) (fun _ _ => rfl)

/-- Claim C1: whenever a response frame reaches the checksum comparison (it
is at least the minimum length, carries the frame-head magic, and its
declared payload length fits) and the stored checksum byte disagrees with the
recomputed one, `_decode_and_verify` fails with the checksum-mismatch error —
and in particular never with a device-error result, regardless of the frame's
command byte or payload content: checksum verification precedes all
command/status interpretation. -/
theorem decode_checksum_precedes_status (response : List Nat) (cmd : Nat)
    (epl : Option Nat)
    (hlen : ACK_FRAME_MIN_LENGTH ≤ response.length)
    (hhead : response.take 2 = FRAME_HEAD)
    (hfit : 6 + response.getD 4 0 ≤ response.length)
    (hck : response.getD (5 + response.getD 4 0) 0 ≠
      calculate_checksum (response.take (5 + response.getD 4 0))) :
    decode_and_verify response cmd epl = .error .checksumMismatch ∧
    ∀ s, decode_and_verify response cmd epl ≠ .error (.deviceError s) := by
  have hmain : decode_and_verify response cmd epl = .error .checksumMismatch := by
    unfold decode_and_verify
    rw [if_neg (by omega), if_neg (by simp [hhead]), if_neg (by omega),
      if_pos hck]
  exact ⟨hmain, fun s hs => by rw [hmain] at hs; exact absurd hs (by simp)⟩

/-- Claim C1 witness: a concrete frame with the error command form `0xC2`
and the plausible bad-parameter status byte `0xE5` in its payload, but a
corrupted checksum, is rejected as a checksum mismatch. -/
theorem decode_checksum_precedes_status_witness :
    decode_and_verify [0x57, 0xAB, 0x00, 0xC2, 0x01, 0xE5, 0x00] 0x02 none =
      .error .checksumMismatch :=
  (decode_checksum_precedes_status [0x57, 0xAB, 0x00, 0xC2, 0x01, 0xE5, 0x00]
    0x02 none (by decide) (by decide) (by decide) (by decide)).1

/-- Claim C5: the code rejects the well-formed 6-byte response frame
`57 AB 00 82 00 84` (declared length 0, correct checksum) as "frame too
short", because `ACK_FRAME_MIN_LENGTH` is 7 — contradicting the code's own
comment and error message ("minimum 6") and its own test
`test_decode_response_empty_data`, which expects this very frame to decode
to an empty payload. -/
theorem decode_six_byte_frame_rejected :
    [0x57, 0xAB, 0x00, 0x82, 0x00, 0x84].length = 6 ∧
    calculate_checksum [0x57, 0xAB, 0x00, 0x82, 0x00] = 0x84 ∧
    decode_and_verify [0x57, 0xAB, 0x00, 0x82, 0x00, 0x84] 0x02 none =
      .error .frameTooShort :=
  ⟨rfl, rfl, rfl⟩

/-- Claim C9: the valid 7-byte response `57 AB 00 C2 00 C4 00` (error command
form, declared length 0, correct checksum over the first five bytes) drives
`_decode_and_verify` into reading `data[0]` of an empty payload — an
`IndexError`, not an `ACKError` — and this exception escapes `_send_frame`'s
`ACKError` handler instead of resolving to the returned failure value. -/
theorem decode_empty_error_frame_index_error :
    decode_and_verify [0x57, 0xAB, 0x00, 0xC2, 0x00, 0xC4, 0x00] 0x02 none =
      .error .indexError ∧
    send_frame 0x02 [] (fun _ => [0x57, 0xAB, 0x00, 0xC2, 0x00, 0xC4, 0x00]) =
      (.exn, 1) :=
  ⟨rfl, rfl⟩

/-- Claim C7: for any persistent state, `hotkey("ctrl","c")` emits exactly
the three reports `(0x01, [])`, `(0x01, [0x06])` and the restore report
rebuilt from the persistent state, and leaves the state — both the held
modifiers and the pressed-key list — exactly as it was: the first report's
modifier byte is `0x01` regardless of the held modifiers, and persistent
state is never merged into the hotkey's own reports nor altered by the
call. -/
theorem hotkey_ctrl_c_isolation (s : HidS) :
    (hotkey s ["ctrl", "c"]).1 = s ∧
    (hotkey s ["ctrl", "c"]).2 =
      [(0x01, []), (0x01, [0x06]),
       (s.heldModifiers, s.pressedKeys.take 6)] :=
  ⟨rfl, rfl⟩

/-- Claim C4 counterexample: pressing the seven distinct keys `a`‥`g` from
the initial state leaves seven entries in the tracked pressed-key list
(so the sequence does exceed 6), and the report sent on the seventh press
carries the oldest six keycodes `0x04`‥`0x09` — the most-recently-added
keycode `0x0A` (`g`) is the one missing from it. -/
theorem keyDown_seventh_key_as_stated_fails :
    ((["a", "b", "c", "d", "e", "f", "g"].foldl
        (fun s k => (keyDown s k).1) initState).pressedKeys).length = 7 ∧
    (keyDown (["a", "b", "c", "d", "e", "f"].foldl
        (fun s k => (keyDown s k).1) initState) "g").2 =
      [(0x00, [0x04, 0x05, 0x06, 0x07, 0x08, 0x09])] ∧
    (0x0A : Nat) ∉ [0x04, 0x05, 0x06, 0x07, 0x08, 0x09] :=
  ⟨rfl, rfl, by decide⟩

/-- Claim C4 (amended): pressing a new non-modifier key while six are
already tracked appends it — the tracked sequence grows to 7 entries, it is
not bounded by 6 — and the report sent to the device is truncated to the
*first* (oldest) six keycodes, so the most-recently-added keycode is the one
silently dropped from the report. -/
theorem keyDown_overflow_keeps_oldest (s : HidS) (key : String) (m c : Nat)
    (hmod : MOD_MAP.lookup (strLower key) = none)
    (hchar : char_to_hid key = (m, some c))
    (hc : c ≠ 0)
    (hmem : c ∉ s.pressedKeys)
    (hlen : s.pressedKeys.length = 6) :
    (keyDown s key).1.pressedKeys = s.pressedKeys ++ [c] ∧
    ((keyDown s key).1.pressedKeys).length = 7 ∧
    (keyDown s key).2 = [(s.heldModifiers ||| m, s.pressedKeys)] ∧
    ∀ r ∈ (keyDown s key).2, c ∉ r.2 := by
  have hkd : keyDown s key =
      (⟨s.heldModifiers, s.pressedKeys ++ [c]⟩,
       [(s.heldModifiers ||| m, (s.pressedKeys ++ [c]).take 6)]) := by
    simp only [keyDown, hmod, hchar]
    rw [if_pos hc, if_neg hmem]
  have htake : (s.pressedKeys ++ [c]).take 6 = s.pressedKeys :=
    List.take_left' hlen
  refine ⟨by rw [hkd], by rw [hkd]; simp [hlen], by rw [hkd, htake], ?_⟩
  rw [hkd, htake]
  intro r hr
  simp only [List.mem_singleton] at hr
  subst hr
  exact hmem

/-- Claim C4 witness: a seventh key `g` pressed while `a`‥`f` are tracked. -/
theorem keyDown_overflow_keeps_oldest_witness :
    (keyDown ⟨0, [4, 5, 6, 7, 8, 9]⟩ "g").1.pressedKeys =
      [4, 5, 6, 7, 8, 9, 10] ∧
    (keyDown ⟨0, [4, 5, 6, 7, 8, 9]⟩ "g").2 = [(0, [4, 5, 6, 7, 8, 9])] := by
  have h := keyDown_overflow_keeps_oldest ⟨0, [4, 5, 6, 7, 8, 9]⟩ "g" 0 10
    rfl rfl (by decide) (by decide) rfl
  exact ⟨h.1, h.2.2.1⟩

/-- Helper for claim C10: `keyDown` either leaves the pressed-key list
unchanged or appends a keycode that was not yet present. -/
theorem keyDown_pressedKeys (s : HidS) (k : String) :
    (keyDown s k).1.pressedKeys = s.pressedKeys ∨
    ∃ c, c ∉ s.pressedKeys ∧
      (keyDown s k).1.pressedKeys = s.pressedKeys ++ [c] := by
  rcases hm : List.lookup (strLower k) MOD_MAP with _ | m
  · rcases hch : char_to_hid k with ⟨m0, _ | c⟩
    · exact Or.inl (by simp [keyDown, hm, hch])
    · by_cases h0 : c = 0
      · exact Or.inl (by simp [keyDown, hm, hch, h0])
      · by_cases hmem : c ∈ s.pressedKeys
        · exact Or.inl (by simp [keyDown, hm, hch, h0, hmem])
        · exact Or.inr ⟨c, hmem, by simp [keyDown, hm, hch, h0, hmem]⟩
  · exact Or.inl (by simp [keyDown, hm])

/-- Helper for claim C10: `keyUp` either leaves the pressed-key list
unchanged or erases one keycode from it. -/
theorem keyUp_pressedKeys (s : HidS) (k : String) :
    (keyUp s k).1.pressedKeys = s.pressedKeys ∨
    ∃ c, (keyUp s k).1.pressedKeys = s.pressedKeys.erase c := by
  rcases hm : List.lookup (strLower k) MOD_MAP with _ | m
  · rcases hch : char_to_hid k with ⟨m0, _ | c⟩
    · exact Or.inl (by simp [keyUp, hm, hch])
    · exact Or.inr ⟨c, by simp [keyUp, hm, hch]⟩
  · exact Or.inl (by simp [keyUp, hm])

/-- Helper for claim C10: every keyboard operation preserves freedom from
duplicates. -/
theorem applyOp_nodup (s : HidS) (op : KbdOp)
    (h : s.pressedKeys.Nodup) : (applyOp s op).pressedKeys.Nodup := by
  cases op with
  | down k =>
    rcases keyDown_pressedKeys s k with he | ⟨c, hmem, he⟩
    · simpa [applyOp, he] using h
    · simp only [applyOp, he]
      simp [List.nodup_append, h]
      exact hmem
  | up k =>
    rcases keyUp_pressedKeys s k with he | ⟨c, he⟩
    · simpa [applyOp, he] using h
    · simp only [applyOp, he]
      exact h.erase c
  | releaseAll => simp [applyOp, releaseAllKey, initState]

/-- Claim C10: after any sequence of `keyDown`, `keyUp` and `releaseAllKey`
operations from the initial state, the tracked pressed-key list contains no
duplicate keycodes. -/
theorem pressed_keys_no_duplicates (ops : List KbdOp) :
    ((ops.foldl applyOp initState).pressedKeys).Nodup := by
  suffices h : ∀ s : HidS, s.pressedKeys.Nodup →
      ((ops.foldl applyOp s).pressedKeys).Nodup by
    exact h initState (by simp [initState])
  induction ops with
  | nil => intro s hs; simpa using hs
  | cons op rest ih =>
    intro s hs
    exact ih _ (applyOp_nodup s op hs)

/-- Claim C6 (amended): the checksum of any byte sequence is its sum modulo
256, and decoding the success-response frame for `cmd` — the frame produced
by encoding with command byte `cmd ||| 0x80` — with `cmd` as the expected
command returns exactly the encoded payload, for any command byte with the
`0x40` bit clear and any nonempty payload of at most 255 bytes. -/
theorem checksum_and_roundtrip :
    (∀ data : List Nat, calculate_checksum data = data.sum % 256) ∧
    (∀ (cmd : Nat) (payload : List Nat), cmd < 256 → cmd &&& 0x40 = 0 →
      payload ≠ [] → payload.length ≤ 255 →
      decode_and_verify (encodeFrame (cmd ||| 0x80) payload) cmd none =
        .ok payload) := by
  refine ⟨calculate_checksum_eq_mod, ?_⟩
  intro cmd payload _hcmd h40 hne _h255
  have hLpos : 0 < payload.length := List.length_pos.mpr hne
  set L := payload.length with hL
  set c2 := cmd ||| 0x80 with hc2
  set l1 : List Nat := FRAME_HEAD ++ [ADDR_DEFAULT, c2, L] ++ payload with hl1
  set cs := calculate_checksum l1 with hcs
  have henc : encodeFrame c2 payload = l1 ++ [cs] := rfl
  have hl1len : l1.length = 5 + L := by simp [hl1, FRAME_HEAD]; omega
  have hform : l1 ++ [cs] =
      0x57 :: 0xAB :: 0x00 :: c2 :: L :: (payload ++ [cs]) := by
    simp [hl1, FRAME_HEAD, ADDR_DEFAULT]
  have f1 : (l1 ++ [cs]).length = 6 + L := by simp [hl1len]; omega
  have f2 : (l1 ++ [cs]).take 2 = FRAME_HEAD := by rw [hform]; rfl
  have f3 : (l1 ++ [cs]).getD 3 0 = c2 := by rw [hform]; rfl
  have f4 : (l1 ++ [cs]).getD 4 0 = L := by rw [hform]; rfl
  have f5 : (l1 ++ [cs]).drop 5 = payload ++ [cs] := by rw [hform]; rfl
  have f6 : (payload ++ [cs]).take L = payload := List.take_left' rfl
  have f7 : (l1 ++ [cs]).getD (5 + L) 0 = cs := by
    rw [List.getD_append_right _ _ _ _ (le_of_eq hl1len), hl1len]
    simp
  have f8 : (l1 ++ [cs]).take (5 + L) = l1 := List.take_left' hl1len
  rw [henc]
  simp only [decode_and_verify]
  rw [if_neg (by rw [f1]; simp only [ACK_FRAME_MIN_LENGTH]; omega)]
  rw [if_neg (by rw [f2]; simp)]
  rw [f3, f4, f5, f6, f7, f8]
  rw [if_neg (by rw [f1]; omega)]
  rw [if_neg (by simp [hcs])]
  rw [if_neg (or80_ne_orC0 cmd h40)]
  rw [if_neg (by simp [hc2])]

/-- Claim C6 witness: the success response for the keyboard command `0x02`
with the one-byte status payload `[0x00]` round-trips. -/
theorem checksum_and_roundtrip_witness :
    decode_and_verify (encodeFrame (0x02 ||| 0x80) [0x00]) 0x02 none =
      .ok [0x00] :=
  checksum_and_roundtrip.2 0x02 [0x00] (by decide) (by decide) (by decide)
    (by decide)

/-- Claim C6 counterexample: the round trip as stated fails.  Encoding with
command byte `0x02` and decoding with `0x02` as the expected command fails
with an unexpected-command error (a success response must carry
`cmd ||| 0x80`), and even the success-form encoding of an empty payload is
rejected as too short by the 7-byte minimum length check. -/
theorem roundtrip_as_stated_fails :
    decode_and_verify (encodeFrame 0x02 [0x00]) 0x02 none =
      .error .unexpectedCommand ∧
    decode_and_verify (encodeFrame (0x02 ||| 0x80) []) 0x02 none =
      .error .frameTooShort :=
  ⟨rfl, rfl⟩

/-- Helper for claim C8: truncation toward zero leaves a remainder of
magnitude strictly below one. -/
theorem abs_sub_truncQ_lt_one (q : ℚ) : |q - truncQ q| < 1 := by
  unfold truncQ
  split
  · have h1 : ((⌊q⌋ : ℚ)) ≤ q := Int.floor_le q
    have h2 : q < ⌊q⌋ + 1 := Int.lt_floor_add_one q
    rw [abs_of_nonneg (by linarith)]
    linarith
  · have h1 : q ≤ ⌈q⌉ := Int.le_ceil q
    have h2 : ((⌈q⌉ : ℚ)) < q + 1 := Int.ceil_lt_add_one q
    rw [abs_of_nonpos (by linarith)]
    linarith

/-- Helper for claim C8: the accumulator remainder stays below one in
magnitude. -/
theorem stepAccum_abs_lt (fs : ℚ) :
    ∀ (n : Nat) (a : ℚ), |a| < 1 → |stepAccum fs n a| < 1
  | 0, _, h => h
  | n + 1, a, _ => stepAccum_abs_lt fs n _ (abs_sub_truncQ_lt_one (a + fs))

/-- Helper for claim C8: the sum of the emitted x-deltas equals the total
accumulated increment minus the final remainder. -/
theorem dragLoop_sum_fst (fsx fsy : ℚ) : ∀ (n : Nat) (ax ay : ℚ),
    ((((dragLoop fsx fsy n ax ay).map Prod.fst).sum : ℤ) : ℚ) =
      ax + n * fsx - stepAccum fsx n ax := by
  intro n
  induction n with
  | zero => intro ax ay; simp [dragLoop, stepAccum]
  | succ n ih =>
    intro ax ay
    simp only [dragLoop]
    have hsa : stepAccum fsx (n + 1) ax =
        stepAccum fsx n (ax + fsx - truncQ (ax + fsx)) := rfl
    by_cases hif : truncQ (ax + fsx) ≠ 0 ∨ truncQ (ay + fsy) ≠ 0
    · rw [if_pos hif, List.map_cons, List.sum_cons, hsa, Int.cast_add, ih]
      push_cast
      ring
    · rw [if_neg hif, hsa, ih]
      push_neg at hif
      rw [hif.1]
      push_cast
      ring

/-- Helper for claim C8: the emitted y-deltas are the x-deltas of the
mirrored loop. -/
theorem dragLoop_swap (fsx fsy : ℚ) : ∀ (n : Nat) (ax ay : ℚ),
    (dragLoop fsx fsy n ax ay).map Prod.snd =
      (dragLoop fsy fsx n ay ax).map Prod.fst := by
  intro n
  induction n with
  | zero => intro ax ay; simp [dragLoop]
  | succ n ih =>
    intro ax ay
    simp only [dragLoop]
    by_cases hif : truncQ (ax + fsx) ≠ 0 ∨ truncQ (ay + fsy) ≠ 0
    · rw [if_pos hif, if_pos (Or.symm hif), List.map_cons, List.map_cons]
      rw [ih]
    · rw [if_neg hif, if_neg (fun h => hif (Or.symm h))]
      exact ih _ _

/-- Claim C8 (amended): for integer displacements, the sum of the per-step
integer deltas handed to `send_mouse_rel` during `dragRel` equals the
requested displacement exactly, for any positive step count — the remainder
carried between steps absorbs all per-step truncation (exact-arithmetic
model of the float accumulators). -/
theorem dragRel_deltas_sum (dx dy : ℤ) (steps : Nat) (h : 0 < steps) :
    ((dragRelDeltas ((dx : ℚ)) ((dy : ℚ)) steps).map Prod.fst).sum = dx ∧
    ((dragRelDeltas ((dx : ℚ)) ((dy : ℚ)) steps).map Prod.snd).sum = dy := by
  have hs0 : ((steps : ℚ)) ≠ 0 := by positivity
  have main : ∀ (d S : ℤ),
      ((S : ℚ) = 0 + steps * ((d : ℚ) / steps) -
        stepAccum ((d : ℚ) / steps) steps 0) → S = d := by
    intro d S hS
    have hmul : (steps : ℚ) * ((d : ℚ) / steps) = d := by field_simp
    rw [hmul, zero_add] at hS
    have habs : |stepAccum ((d : ℚ) / steps) steps 0| < 1 :=
      stepAccum_abs_lt _ steps 0 (by norm_num)
    have h1 : |((d - S : ℤ) : ℚ)| < 1 := by
      push_cast
      have he : (d : ℚ) - S = stepAccum ((d : ℚ) / steps) steps 0 := by
        linarith
      rw [he]
      exact habs
    have h2 : |d - S| < 1 := by exact_mod_cast h1
    rcases abs_lt.mp h2 with ⟨hl, hr⟩
    omega
  constructor
  · exact main dx _ (dragLoop_sum_fst _ _ steps 0 0)
  · refine main dy _ ?_
    rw [dragRelDeltas, dragLoop_swap]
    exact dragLoop_sum_fst _ _ steps 0 0

/-- Claim C8 witness: `dragRel` over the displacement `(7, -3)` decomposed
into two steps sums back to `(7, -3)` exactly. -/
theorem dragRel_deltas_sum_witness :
    ((dragRelDeltas ((7 : ℤ) : ℚ) (((-3) : ℤ) : ℚ) 2).map Prod.fst).sum =
      7 ∧
    ((dragRelDeltas ((7 : ℤ) : ℚ) (((-3) : ℤ) : ℚ) 2).map Prod.snd).sum =
      (-3) :=
  dragRel_deltas_sum 7 (-3) 2 (by decide)

/-- Claim C8 counterexample: for the fractional displacement `(2.5, 0)` the
code computes a single step (`ceil(2.5 / 4.62) = 1`), emits the one report
`(2, 0)`, and the summed deltas `2` differ from the requested `2.5`: integer
reports cannot sum to a non-integer displacement, so the claim fails for
arbitrary (non-integer) inputs. -/
theorem dragRel_fractional_fails :
    dragRelDeltas ((5 : ℚ) / 2) 0 1 = [(2, 0)] ∧
    ((((dragRelDeltas ((5 : ℚ) / 2) 0 1).map Prod.fst).sum : ℤ) : ℚ) ≠
      (5 : ℚ) / 2 := by
  have ht : truncQ ((0 : ℚ) + (5 : ℚ) / 2 / ((1 : ℕ) : ℚ)) = 2 := by
    unfold truncQ
    rw [if_pos (by norm_num)]
    norm_num
  have ht0 : truncQ ((0 : ℚ) + (0 : ℚ) / ((1 : ℕ) : ℚ)) = 0 := by
    unfold truncQ
    rw [if_pos (by norm_num)]
    norm_num
  have h1 : dragRelDeltas ((5 : ℚ) / 2) 0 1 = [(2, 0)] := by
    unfold dragRelDeltas
    simp only [dragLoop, ht, ht0]
    norm_num
  refine ⟨h1, ?_⟩
  rw [h1]
  norm_num
